import Mathlib

/-!
Shallow embedding of the outlit SDK's event delivery core
(crates/outlit/src: queue.rs, transport.rs, client.rs, error.rs, types.rs).

The delivery logic never inspects the contents of a TrackerEvent (the spec
treats Event as an opaque value belonging to the excluded builder domain),
so the queue and client are embedded parametrically in the event type.
The async mutex-guarded state is embedded as explicit state passing: each
client operation is a function from a world (client state, a transport
oracle giving the outcome of the n-th HTTP exchange, a call counter and a
log of payloads handed to Transport.send) to a result paired with the next
world.
-/

namespace OutlitSDK

/-- Source tag for ingest payloads (types.rs, SourceType): this SDK always sends server. -/
inductive SourceType where
  | server
deriving Repr, DecidableEq

/-- Per-event processing error inside an ingest response (types.rs, IngestError). -/
structure IngestError where
  index : Nat
  message : String
deriving Repr, DecidableEq

/-- Response from the ingest API (types.rs, IngestResponse). -/
structure IngestResponse where
  success : Bool
  processed : Nat
  errors : Option (List IngestError)
deriving Repr, DecidableEq

/-- SDK error type (error.rs, Error). The http constructor stands for the
reqwest-originated variant Error::Http, which both a network failure of the
request and a deserialization failure of the response body convert into via
the same From conversion; api is Error::Api, config is Error::Config,
shutdown is Error::Shutdown, serialization is Error::Serialization. -/
inductive Error where
  | http (msg : String)
  | api (status : Nat) (message : String)
  | config (msg : String)
  | shutdown
  | serialization (msg : String)
deriving Repr, DecidableEq

/-- Payload sent to the ingest API (types.rs, IngestPayload). -/
structure IngestPayload (Event : Type) where
  source : SourceType
  events : List Event

/-- Event queue (queue.rs, EventQueue): an ordered buffer of pending events
plus the max_size threshold; the Vec behind the tokio Mutex becomes a List. -/
structure EventQueue (Event : Type) where
  events : List Event
  max_size : Nat

/-- EventQueue::new: empty buffer with the given threshold. -/
def EventQueue.new (Event : Type) (max_size : Nat) : EventQueue Event :=
  { events := [], max_size := max_size }

/-- EventQueue::enqueue: push the event at the tail. -/
def EventQueue.enqueue {Event : Type} (q : EventQueue Event) (event : Event) :
    EventQueue Event :=
  { q with events := q.events ++ [event] }

/-- EventQueue::should_flush: true iff the current length has reached max_size. -/
def EventQueue.should_flush {Event : Type} (q : EventQueue Event) : Bool :=
  q.max_size ≤ q.events.length

/-- EventQueue::len: number of queued events. -/
def EventQueue.len {Event : Type} (q : EventQueue Event) : Nat :=
  q.events.length

/-- EventQueue::is_empty: len() == 0. -/
def EventQueue.is_empty {Event : Type} (q : EventQueue Event) : Bool :=
  EventQueue.len q == 0

/-- EventQueue::drain: take all events out (std::mem::take), returning the
drained list together with the emptied queue. -/
def EventQueue.drain {Event : Type} (q : EventQueue Event) :
    List Event × EventQueue Event :=
  (q.events, { q with events := [] })

/-- EventQueue::requeue: early-return when the argument is empty, otherwise
prepend the argument in front of the current contents. -/
def EventQueue.requeue {Event : Type} (q : EventQueue Event)
    (events_to_add : List Event) : EventQueue Event :=
  if events_to_add.isEmpty then q
  else { q with events := events_to_add ++ q.events }

/-- Outcome of one HTTP exchange as seen below HttpTransport::send
(transport.rs): either the reqwest request itself failed (netErr), or a
response arrived carrying a status code, the body text, and the result of
deserializing the body into an IngestResponse. -/
inductive HttpOutcome where
  | netErr (msg : String)
  | reply (status : Nat) (body_text : String) (parsed : Except String IngestResponse)

/-- reqwest StatusCode::is_success: 2xx. -/
def status_is_success (status : Nat) : Bool :=
  200 ≤ status && status < 300

/-- HttpTransport::send (transport.rs lines 32-69): a failed request maps to
Error::Http; a non-success status maps to Error::Config built from the
status and body text; a body that fails to deserialize maps to Error::Http;
otherwise the parsed IngestResponse is returned (per-event errors inside it
are only logged as warnings). -/
def HttpTransport.send (outcome : HttpOutcome) : Except Error IngestResponse :=
  match outcome with
  | .netErr msg => .error (.http msg)
  | .reply status body_text parsed =>
    if !status_is_success status then
      .error (.config ("HTTP " ++ toString status ++ ": " ++ body_text))
    else
      match parsed with
      | .error msg => .error (.http msg)
      | .ok result => .ok result

/-- Client-side mutable state of Outlit (client.rs): the queue, the
is_shutdown AtomicBool, and whether the background flush timer task is
still running (the flush_handle). -/
structure ClientState (Event : Type) where
  queue : EventQueue Event
  is_shutdown : Bool
  timer_running : Bool

/-- A world: the client state plus the environment needed to run it — a
transport oracle giving the HTTP outcome of the n-th send, the number of
sends performed so far, and the log of payloads handed to Transport.send. -/
structure World (Event : Type) where
  client : ClientState Event
  transport : Nat → HttpOutcome
  calls : Nat
  sent : List (IngestPayload Event)

/-- Outlit::pending_event_count: queue length. -/
def Outlit.pending_event_count {Event : Type} (w : World Event) : Nat :=
  EventQueue.len w.client.queue

/-- Outlit::flush (client.rs lines 232-257): return Ok when the queue is
empty; otherwise drain, return Ok if the drained batch is empty, else wrap
the batch into an IngestPayload with source Server and call
Transport.send; on send failure requeue the whole batch and return the
error, on success discard the batch and return Ok. -/
def Outlit.flush {Event : Type} (w : World Event) :
    Except Error Unit × World Event :=
  if EventQueue.is_empty w.client.queue then (.ok (), w)
  else
    let drained := EventQueue.drain w.client.queue
    if drained.1.isEmpty then
      (.ok (), { w with client := { w.client with queue := drained.2 } })
    else
      let payload : IngestPayload Event := { source := .server, events := drained.1 }
      let w1 : World Event :=
        { w with
          client := { w.client with queue := drained.2 }
          calls := w.calls + 1
          sent := w.sent ++ [payload] }
      match HttpTransport.send (w.transport w.calls) with
      | .error e =>
        (.error e,
          { w1 with
            client :=
              { w1.client with
                queue := EventQueue.requeue w1.client.queue payload.events } })
      | .ok _result => (.ok (), w1)

/-- Outlit::shutdown (client.rs lines 263-279): the atomic swap on
is_shutdown makes every call after the first return Ok immediately; the
first call sets the flag, aborts the flush timer, and performs the terminal
flush, propagating its result. -/
def Outlit.shutdown {Event : Type} (w : World Event) :
    Except Error Unit × World Event :=
  if w.client.is_shutdown then (.ok (), w)
  else
    Outlit.flush
      { w with client := { w.client with is_shutdown := true, timer_running := false } }

/-- Outlit::ensure_not_shutdown (client.rs lines 285-290). -/
def Outlit.ensure_not_shutdown {Event : Type} (c : ClientState Event) :
    Except Error Unit :=
  if c.is_shutdown then .error .shutdown else .ok ()

/-- Outlit::enqueue_and_maybe_flush (client.rs lines 339-350): reject with
Error::Shutdown after shutdown, otherwise enqueue the built event and flush
when the queue reports should_flush, propagating the flush result. -/
def Outlit.enqueue_and_maybe_flush {Event : Type} (w : World Event)
    (event : Event) : Except Error Unit × World Event :=
  match Outlit.ensure_not_shutdown w.client with
  | .error e => (.error e, w)
  | .ok _ =>
    let w1 : World Event :=
      { w with client := { w.client with queue := EventQueue.enqueue w.client.queue event } }
    if EventQueue.should_flush w1.client.queue then Outlit.flush w1
    else (.ok (), w1)

/-! ## Helper lemmas characterizing one flush step -/

lemma is_empty_false_of_ne_nil {Event : Type} (q : EventQueue Event)
    (h : q.events ≠ []) : EventQueue.is_empty q = false := by
  unfold EventQueue.is_empty EventQueue.len
  cases hq : q.events with
  | nil => exact absurd hq h
  | cons a as => simp

/-- A flush of an empty queue is the identity and returns Ok. -/
lemma flush_of_empty {Event : Type} (w : World Event)
    (h : w.client.queue.events = []) : Outlit.flush w = (.ok (), w) := by
  unfold Outlit.flush
  simp [EventQueue.is_empty, EventQueue.len, h]

/-- A flush of a nonempty queue whose send fails returns the error and puts
the drained batch back, leaving the client state unchanged; only the call
counter and the send log advance. -/
lemma flush_of_fail {Event : Type} (w : World Event) (e : Error)
    (hne : w.client.queue.events ≠ [])
    (hfail : HttpTransport.send (w.transport w.calls) = .error e) :
    Outlit.flush w =
      (.error e,
       { w with
         calls := w.calls + 1
         sent := w.sent ++ [{ source := .server, events := w.client.queue.events }] }) := by
  obtain ⟨a, as, hq⟩ := List.exists_cons_of_ne_nil hne
  unfold Outlit.flush
  simp [EventQueue.is_empty, EventQueue.len, EventQueue.drain, EventQueue.requeue,
    hq, hfail]
  rw [← hq]

/-- A flush of a nonempty queue whose send succeeds returns Ok and empties
the queue; the call counter and the send log advance. -/
lemma flush_of_ok {Event : Type} (w : World Event) (resp : IngestResponse)
    (hne : w.client.queue.events ≠ [])
    (hok : HttpTransport.send (w.transport w.calls) = .ok resp) :
    Outlit.flush w =
      (.ok (),
       { w with
         client := { w.client with queue := { w.client.queue with events := [] } }
         calls := w.calls + 1
         sent := w.sent ++ [{ source := .server, events := w.client.queue.events }] }) := by
  obtain ⟨a, as, hq⟩ := List.exists_cons_of_ne_nil hne
  unfold Outlit.flush
  simp [EventQueue.is_empty, EventQueue.len, EventQueue.drain, hq, hok]

/-- Flush never touches the lifecycle flag or the timer handle. -/
lemma flush_preserves_flags {Event : Type} (w : World Event) :
    (Outlit.flush w).2.client.is_shutdown = w.client.is_shutdown ∧
    (Outlit.flush w).2.client.timer_running = w.client.timer_running := by
  by_cases h : w.client.queue.events = []
  · rw [flush_of_empty w h]
    exact ⟨rfl, rfl⟩
  · cases hsend : HttpTransport.send (w.transport w.calls) with
    | error e =>
      rw [flush_of_fail w e h hsend]
      exact ⟨rfl, rfl⟩
    | ok r =>
      rw [flush_of_ok w r h hsend]
      exact ⟨rfl, rfl⟩

/-- HttpTransport.send can fail with an http or config error but never
produces the shutdown error. -/
lemma send_ne_shutdown (o : HttpOutcome) :
    HttpTransport.send o ≠ .error .shutdown := by
  cases o with
  | netErr msg => simp [HttpTransport.send]
  | reply status body parsed =>
    cases h : status_is_success status with
    | false => simp [HttpTransport.send, h]
    | true =>
      cases parsed with
      | error msg => simp [HttpTransport.send, h]
      | ok r => simp [HttpTransport.send, h]

/-! ## Claim theorems -/

/-- C3: requeue(xs) results in the queue holding exactly xs followed by the
previous contents q — the relative order within xs and within q is
preserved and all of xs comes strictly before all of q — the threshold is
untouched, and requeue of the empty list is a no-op. -/
theorem requeue_prepend_spec {Event : Type} (xs : List Event) (q : EventQueue Event) :
    (EventQueue.requeue q xs).events = xs ++ q.events ∧
    (EventQueue.requeue q xs).max_size = q.max_size ∧
    EventQueue.requeue q [] = q := by
  refine ⟨?_, ?_, ?_⟩
  · unfold EventQueue.requeue
    cases xs with
    | nil => simp
    | cons a as => simp
  · unfold EventQueue.requeue
    cases xs with
    | nil => simp
    | cons a as => simp
  · simp [EventQueue.requeue]

/-- C4: drain removes and returns all queued events in their original
order and leaves the queue empty; on a fresh (empty) queue it returns the
empty sequence; after enqueuing a, b, c in that order it returns exactly
the list a, b, c. -/
theorem drain_order_spec {Event : Type} (q : EventQueue Event) (a b c : Event)
    (m : Nat) :
    (EventQueue.drain q).1 = q.events ∧
    (EventQueue.drain q).2.events = [] ∧
    (EventQueue.drain (EventQueue.new Event m)).1 = [] ∧
    (EventQueue.drain
      (EventQueue.enqueue
        (EventQueue.enqueue (EventQueue.enqueue (EventQueue.new Event m) a) b)
        c)).1 = [a, b, c] := by
  refine ⟨rfl, rfl, rfl, ?_⟩
  simp [EventQueue.drain, EventQueue.new, EventQueue.enqueue]

/-- C1: if Transport.send fails during an explicit flush of a nonempty
queue, the entire drained batch is requeued at the front in its original
order before the TransportError is returned — the pending event count is
unchanged and in fact the queue contents are exactly what they were — and a
subsequent flush whose send succeeds returns Ok and leaves the pending
count at 0. -/
theorem flush_failure_preserves_pending {Event : Type} (w : World Event) (e : Error)
    (resp : IngestResponse)
    (hne : w.client.queue.events ≠ [])
    (hfail : HttpTransport.send (w.transport w.calls) = .error e)
    (hok : HttpTransport.send (w.transport (w.calls + 1)) = .ok resp) :
    (Outlit.flush w).1 = .error e ∧
    (Outlit.flush w).2.client.queue.events = w.client.queue.events ∧
    Outlit.pending_event_count (Outlit.flush w).2 = Outlit.pending_event_count w ∧
    (Outlit.flush (Outlit.flush w).2).1 = .ok () ∧
    Outlit.pending_event_count (Outlit.flush (Outlit.flush w).2).2 = 0 := by
  rw [flush_of_fail w e hne hfail]
  refine ⟨rfl, rfl, rfl, ?_, ?_⟩
  · dsimp only
    rw [flush_of_ok
      { client := w.client, transport := w.transport, calls := w.calls + 1,
        sent := w.sent ++ [{ source := SourceType.server, events := w.client.queue.events }] }
      resp hne hok]
  · dsimp only
    rw [flush_of_ok
      { client := w.client, transport := w.transport, calls := w.calls + 1,
        sent := w.sent ++ [{ source := SourceType.server, events := w.client.queue.events }] }
      resp hne hok]
    simp [Outlit.pending_event_count, EventQueue.len]

/-- C6: flush on an empty queue returns success without invoking
Transport.send: the whole world is unchanged, so in particular the send
call counter and the log of sent payloads are untouched. -/
theorem flush_empty_queue_no_send {Event : Type} (w : World Event)
    (h : w.client.queue.events = []) :
    Outlit.flush w = (.ok (), w) ∧
    (Outlit.flush w).2.calls = w.calls ∧
    (Outlit.flush w).2.sent = w.sent := by
  rw [flush_of_empty w h]
  exact ⟨rfl, rfl, rfl⟩

/-- C8: when Transport.send returns a successful response carrying
per-event processing errors, flush still reports success, the batch is
discarded rather than requeued — the queue ends empty with pending count 0
— and the batch was handed to the transport exactly once, never to be
retried automatically. -/
theorem partial_errors_still_success {Event : Type} (w : World Event)
    (resp : IngestResponse) (es : List IngestError)
    (hne : w.client.queue.events ≠ [])
    (herrs : resp.errors = some es)
    (hnees : es ≠ [])
    (hok : HttpTransport.send (w.transport w.calls) = .ok resp) :
    (Outlit.flush w).1 = .ok () ∧
    (Outlit.flush w).2.client.queue.events = [] ∧
    Outlit.pending_event_count (Outlit.flush w).2 = 0 ∧
    (Outlit.flush w).2.sent =
      w.sent ++ [{ source := SourceType.server, events := w.client.queue.events }] := by
  rw [flush_of_ok w resp hne hok]
  exact ⟨rfl, rfl, rfl, rfl⟩

/-- C9: flush is not gated by the lifecycle flag — it can never return the
shutdown error; even on a client whose lifecycle flag is set, a flush of a
nonempty queue still drains and attempts delivery exactly once, returning
the transport outcome, and a flush of an empty queue returns success. -/
theorem flush_not_gated_by_lifecycle {Event : Type} (w : World Event)
    (hsd : w.client.is_shutdown = true)
    (hne : w.client.queue.events ≠ []) :
    (∀ v : World Event, (Outlit.flush v).1 ≠ Except.error Error.shutdown) ∧
    (Outlit.flush w).2.calls = w.calls + 1 ∧
    (Outlit.flush w).2.sent =
      w.sent ++ [{ source := SourceType.server, events := w.client.queue.events }] ∧
    (∀ e : Error, HttpTransport.send (w.transport w.calls) = Except.error e →
      (Outlit.flush w).1 = Except.error e) ∧
    (∀ resp : IngestResponse, HttpTransport.send (w.transport w.calls) = Except.ok resp →
      (Outlit.flush w).1 = Except.ok ()) ∧
    (∀ v : World Event, v.client.queue.events = [] → Outlit.flush v = (Except.ok (), v)) := by
  refine ⟨?_, ?_, ?_, ?_, ?_, fun v hv => flush_of_empty v hv⟩
  · intro v
    by_cases h : v.client.queue.events = []
    · rw [flush_of_empty v h]
      simp
    · cases hsend : HttpTransport.send (v.transport v.calls) with
      | error e =>
        rw [flush_of_fail v e h hsend]
        dsimp only
        intro hcontra
        injection hcontra with he
        rw [he] at hsend
        exact send_ne_shutdown (v.transport v.calls) hsend
      | ok r =>
        rw [flush_of_ok v r h hsend]
        simp
  · cases hsend : HttpTransport.send (w.transport w.calls) with
    | error e => rw [flush_of_fail w e hne hsend]
    | ok r => rw [flush_of_ok w r hne hsend]
  · cases hsend : HttpTransport.send (w.transport w.calls) with
    | error e => rw [flush_of_fail w e hne hsend]
    | ok r => rw [flush_of_ok w r hne hsend]
  · intro e hsend
    rw [flush_of_fail w e hne hsend]
  · intro resp hsend
    rw [flush_of_ok w resp hne hsend]

/-- After shutdown the enqueue path is rejected with Error::Shutdown and the
world is returned unchanged. -/
lemma enqueue_rejected_of_shutdown {Event : Type} (v : World Event) (ev : Event)
    (h : v.client.is_shutdown = true) :
    Outlit.enqueue_and_maybe_flush v ev = (.error .shutdown, v) := by
  unfold Outlit.enqueue_and_maybe_flush Outlit.ensure_not_shutdown
  simp [h]

/-- Every completed shutdown leaves the lifecycle flag set. -/
lemma shutdown_sets_flag {Event : Type} (v : World Event) :
    (Outlit.shutdown v).2.client.is_shutdown = true := by
  unfold Outlit.shutdown
  cases h : v.client.is_shutdown with
  | true => simp [h]
  | false =>
    simp only [h, Bool.false_eq_true, if_false]
    exact (flush_preserves_flags _).1

/-- The enqueue path never changes the lifecycle flag. -/
lemma enqueue_preserves_flag {Event : Type} (v : World Event) (ev : Event) :
    (Outlit.enqueue_and_maybe_flush v ev).2.client.is_shutdown = v.client.is_shutdown := by
  cases h : v.client.is_shutdown with
  | true =>
    rw [enqueue_rejected_of_shutdown v ev h]
    exact h
  | false =>
    unfold Outlit.enqueue_and_maybe_flush Outlit.ensure_not_shutdown
    simp only [h, Bool.false_eq_true, if_false]
    split
    · exact (flush_preserves_flags _).1
    · rfl

/-- C2: the first shutdown of an active client stops the flush timer,
performs exactly one terminal flush — one Transport.send call carrying the
whole pending batch — and returns its success; every later shutdown call
returns success immediately without changing anything; and no operation
ever resets the lifecycle flag once set. -/
theorem shutdown_idempotent_single_flush {Event : Type} (w : World Event)
    (resp : IngestResponse)
    (hact : w.client.is_shutdown = false)
    (hne : w.client.queue.events ≠ [])
    (hok : HttpTransport.send (w.transport w.calls) = .ok resp) :
    (Outlit.shutdown w).1 = .ok () ∧
    (Outlit.shutdown w).2.client.is_shutdown = true ∧
    (Outlit.shutdown w).2.client.timer_running = false ∧
    (Outlit.shutdown w).2.client.queue.events = [] ∧
    (Outlit.shutdown w).2.calls = w.calls + 1 ∧
    (Outlit.shutdown w).2.sent =
      w.sent ++ [{ source := SourceType.server, events := w.client.queue.events }] ∧
    Outlit.shutdown (Outlit.shutdown w).2 = (.ok (), (Outlit.shutdown w).2) ∧
    Outlit.shutdown (Outlit.shutdown (Outlit.shutdown w).2).2
      = (.ok (), (Outlit.shutdown w).2) ∧
    (∀ v : World Event, (Outlit.flush v).2.client.is_shutdown = v.client.is_shutdown) ∧
    (∀ (v : World Event) (ev : Event),
      (Outlit.enqueue_and_maybe_flush v ev).2.client.is_shutdown = v.client.is_shutdown) ∧
    (∀ v : World Event, v.client.is_shutdown = true →
      (Outlit.shutdown v).2.client.is_shutdown = true) := by
  have hsw : Outlit.shutdown w =
      (.ok (),
       { client := { queue := { events := [], max_size := w.client.queue.max_size },
                     is_shutdown := true, timer_running := false },
         transport := w.transport, calls := w.calls + 1,
         sent := w.sent ++ [{ source := SourceType.server, events := w.client.queue.events }] }) := by
    unfold Outlit.shutdown
    simp only [hact, Bool.false_eq_true, if_false]
    exact flush_of_ok _ resp hne hok
  rw [hsw]
  refine ⟨rfl, rfl, rfl, rfl, rfl, rfl, rfl, rfl,
    fun v => (flush_preserves_flags v).1,
    fun v ev => enqueue_preserves_flag v ev,
    fun v _ => shutdown_sets_flag v⟩

/-- C5: once the lifecycle flag is set, the enqueue-and-maybe-flush path
(the send of every builder) fails with Error::Shutdown and the world —
including the queue and its pending count — is unchanged; and every
completed shutdown does leave the flag set. -/
theorem post_shutdown_enqueue_rejected {Event : Type} (w : World Event) (ev : Event)
    (h : w.client.is_shutdown = true) :
    Outlit.enqueue_and_maybe_flush w ev = (.error .shutdown, w) ∧
    Outlit.pending_event_count (Outlit.enqueue_and_maybe_flush w ev).2 =
      Outlit.pending_event_count w ∧
    (∀ v : World Event, (Outlit.shutdown v).2.client.is_shutdown = true) := by
  refine ⟨enqueue_rejected_of_shutdown w ev h, ?_, fun v => shutdown_sets_flag v⟩
  rw [enqueue_rejected_of_shutdown w ev h]

/-- C10: when the terminal flush inside the first shutdown fails, shutdown
returns that error, the client is nonetheless permanently shut down with
the failed batch requeued, every later shutdown returns success with no
further delivery attempt, and every later enqueue is rejected. -/
theorem shutdown_terminal_flush_failure {Event : Type} (w : World Event) (e : Error)
    (ev : Event)
    (hact : w.client.is_shutdown = false)
    (hne : w.client.queue.events ≠ [])
    (hfail : HttpTransport.send (w.transport w.calls) = .error e) :
    (Outlit.shutdown w).1 = .error e ∧
    (Outlit.shutdown w).2.client.is_shutdown = true ∧
    (Outlit.shutdown w).2.client.queue.events = w.client.queue.events ∧
    Outlit.shutdown (Outlit.shutdown w).2 = (.ok (), (Outlit.shutdown w).2) ∧
    (Outlit.shutdown (Outlit.shutdown w).2).2.calls = (Outlit.shutdown w).2.calls ∧
    Outlit.enqueue_and_maybe_flush (Outlit.shutdown w).2 ev
      = (.error .shutdown, (Outlit.shutdown w).2) := by
  have hsw : Outlit.shutdown w =
      (.error e,
       { client := { queue := w.client.queue, is_shutdown := true, timer_running := false },
         transport := w.transport, calls := w.calls + 1,
         sent := w.sent ++ [{ source := SourceType.server, events := w.client.queue.events }] }) := by
    unfold Outlit.shutdown
    simp only [hact, Bool.false_eq_true, if_false]
    exact flush_of_fail _ e hne hfail
  rw [hsw]
  refine ⟨rfl, rfl, rfl, rfl, rfl, ?_⟩
  exact enqueue_rejected_of_shutdown _ ev rfl

/-- C7: the transport layer turns a failed request into Error::Http and a
response body that fails to deserialize into Error::Http, but a non-success
HTTP status into Error::Config — the configuration-error variant — even
though the unused Error::Api variant is the one documented for API error
responses; all three outcomes are errors, so all three send the delivery
path into requeue. -/
theorem send_http_status_yields_config_error :
    HttpTransport.send
        (HttpOutcome.reply 500 "Internal server error" (Except.error "unparsed"))
      = Except.error (Error.config "HTTP 500: Internal server error") ∧
    HttpTransport.send (HttpOutcome.netErr "connection reset")
      = Except.error (Error.http "connection reset") ∧
    HttpTransport.send (HttpOutcome.reply 200 "raw body" (Except.error "invalid response body"))
      = Except.error (Error.http "invalid response body") := by
  refine ⟨?_, rfl, ?_⟩ <;> rfl

/-! ## Concrete worlds for witnesses -/

/-- Concrete world with one pending event whose transport fails on the
first send and succeeds on the second. -/
def wC1 : World Nat :=
  { client := { queue := { events := [1], max_size := 10 }, is_shutdown := false,
                timer_running := true }
    transport := fun n =>
      if n == 0 then HttpOutcome.netErr "connection refused"
      else HttpOutcome.reply 200 "raw"
        (Except.ok { success := true, processed := 1, errors := none })
    calls := 0
    sent := [] }

/-- Concrete active world with one pending event and an always-succeeding
transport. -/
def wC2 : World Nat :=
  { client := { queue := { events := [5], max_size := 10 }, is_shutdown := false,
                timer_running := true }
    transport := fun _ =>
      HttpOutcome.reply 200 "raw"
        (Except.ok { success := true, processed := 1, errors := none })
    calls := 0
    sent := [] }

/-- Concrete world already shut down, with one pending event. -/
def wC5 : World Nat :=
  { client := { queue := { events := [3], max_size := 10 }, is_shutdown := true,
                timer_running := false }
    transport := fun _ => HttpOutcome.netErr "unreachable"
    calls := 0
    sent := [] }

/-- Concrete world with an empty queue. -/
def wC6 : World Nat :=
  { client := { queue := { events := [], max_size := 10 }, is_shutdown := false,
                timer_running := true }
    transport := fun _ => HttpOutcome.netErr "unreachable"
    calls := 0
    sent := [] }

/-- Concrete world whose transport succeeds with a response carrying one
per-event processing error. -/
def wC8 : World Nat :=
  { client := { queue := { events := [4], max_size := 10 }, is_shutdown := false,
                timer_running := true }
    transport := fun _ =>
      HttpOutcome.reply 200 "raw"
        (Except.ok { success := true, processed := 0,
                     errors := some [{ index := 0, message := "rejected event" }] })
    calls := 0
    sent := [] }

/-- Concrete world already shut down, with one pending event and a failing
transport. -/
def wC9 : World Nat :=
  { client := { queue := { events := [2], max_size := 10 }, is_shutdown := true,
                timer_running := false }
    transport := fun _ => HttpOutcome.netErr "connection refused"
    calls := 0
    sent := [] }

/-- Concrete active world with one pending event and a transport that
always times out. -/
def wC10 : World Nat :=
  { client := { queue := { events := [9], max_size := 10 }, is_shutdown := false,
                timer_running := true }
    transport := fun _ => HttpOutcome.netErr "operation timed out"
    calls := 0
    sent := [] }

/-! ## Witnesses -/

/-- Witness for C1: one pending event, send failing once then succeeding. -/
theorem flush_failure_preserves_pending_witness :
    wC1.client.queue.events ≠ [] ∧
    HttpTransport.send (wC1.transport wC1.calls)
      = .error (Error.http "connection refused") ∧
    HttpTransport.send (wC1.transport (wC1.calls + 1))
      = .ok { success := true, processed := 1, errors := none } ∧
    ((Outlit.flush wC1).1 = .error (Error.http "connection refused") ∧
     (Outlit.flush wC1).2.client.queue.events = wC1.client.queue.events ∧
     Outlit.pending_event_count (Outlit.flush wC1).2 = Outlit.pending_event_count wC1 ∧
     (Outlit.flush (Outlit.flush wC1).2).1 = .ok () ∧
     Outlit.pending_event_count (Outlit.flush (Outlit.flush wC1).2).2 = 0) :=
  ⟨by simp [wC1], rfl, rfl,
   flush_failure_preserves_pending wC1 (Error.http "connection refused")
     { success := true, processed := 1, errors := none } (by simp [wC1]) rfl rfl⟩

/-- Witness for C2: one pending event, three sequential shutdowns. -/
theorem shutdown_idempotent_single_flush_witness :
    wC2.client.is_shutdown = false ∧
    wC2.client.queue.events ≠ [] ∧
    HttpTransport.send (wC2.transport wC2.calls)
      = .ok { success := true, processed := 1, errors := none } ∧
    ((Outlit.shutdown wC2).1 = .ok () ∧
     (Outlit.shutdown wC2).2.client.is_shutdown = true ∧
     (Outlit.shutdown wC2).2.client.timer_running = false ∧
     (Outlit.shutdown wC2).2.client.queue.events = [] ∧
     (Outlit.shutdown wC2).2.calls = wC2.calls + 1 ∧
     (Outlit.shutdown wC2).2.sent =
       wC2.sent ++ [{ source := SourceType.server, events := wC2.client.queue.events }] ∧
     Outlit.shutdown (Outlit.shutdown wC2).2 = (.ok (), (Outlit.shutdown wC2).2) ∧
     Outlit.shutdown (Outlit.shutdown (Outlit.shutdown wC2).2).2
       = (.ok (), (Outlit.shutdown wC2).2) ∧
     (∀ v : World Nat, (Outlit.flush v).2.client.is_shutdown = v.client.is_shutdown) ∧
     (∀ (v : World Nat) (ev : Nat),
       (Outlit.enqueue_and_maybe_flush v ev).2.client.is_shutdown = v.client.is_shutdown) ∧
     (∀ v : World Nat, v.client.is_shutdown = true →
       (Outlit.shutdown v).2.client.is_shutdown = true)) :=
  ⟨rfl, by simp [wC2], rfl,
   shutdown_idempotent_single_flush wC2
     { success := true, processed := 1, errors := none } rfl (by simp [wC2]) rfl⟩

/-- Witness for C5: a shut-down client rejects an enqueue of event 7. -/
theorem post_shutdown_enqueue_rejected_witness :
    wC5.client.is_shutdown = true ∧
    (Outlit.enqueue_and_maybe_flush wC5 7 = (.error .shutdown, wC5) ∧
     Outlit.pending_event_count (Outlit.enqueue_and_maybe_flush wC5 7).2 =
       Outlit.pending_event_count wC5 ∧
     (∀ v : World Nat, (Outlit.shutdown v).2.client.is_shutdown = true)) :=
  ⟨rfl, post_shutdown_enqueue_rejected wC5 7 rfl⟩

/-- Witness for C6: a flush of the empty queue. -/
theorem flush_empty_queue_no_send_witness :
    wC6.client.queue.events = [] ∧
    (Outlit.flush wC6 = (.ok (), wC6) ∧
     (Outlit.flush wC6).2.calls = wC6.calls ∧
     (Outlit.flush wC6).2.sent = wC6.sent) :=
  ⟨rfl, flush_empty_queue_no_send wC6 rfl⟩

/-- Witness for C8: a successful send whose response reports one rejected
event. -/
theorem partial_errors_still_success_witness :
    wC8.client.queue.events ≠ [] ∧
    (IngestResponse.errors
        { success := true, processed := 0,
          errors := some [{ index := 0, message := "rejected event" }] }
      = some [{ index := 0, message := "rejected event" }]) ∧
    ([({ index := 0, message := "rejected event" } : IngestError)] ≠ []) ∧
    HttpTransport.send (wC8.transport wC8.calls)
      = .ok { success := true, processed := 0,
              errors := some [{ index := 0, message := "rejected event" }] } ∧
    ((Outlit.flush wC8).1 = .ok () ∧
     (Outlit.flush wC8).2.client.queue.events = [] ∧
     Outlit.pending_event_count (Outlit.flush wC8).2 = 0 ∧
     (Outlit.flush wC8).2.sent =
       wC8.sent ++ [{ source := SourceType.server, events := wC8.client.queue.events }]) :=
  ⟨by simp [wC8], rfl, by simp, rfl,
   partial_errors_still_success wC8
     { success := true, processed := 0,
       errors := some [{ index := 0, message := "rejected event" }] }
     [{ index := 0, message := "rejected event" }]
     (by simp [wC8]) rfl (by simp) rfl⟩

/-- Witness for C9: flush on a shut-down client with one pending event. -/
theorem flush_not_gated_by_lifecycle_witness :
    wC9.client.is_shutdown = true ∧
    wC9.client.queue.events ≠ [] ∧
    ((∀ v : World Nat, (Outlit.flush v).1 ≠ Except.error Error.shutdown) ∧
     (Outlit.flush wC9).2.calls = wC9.calls + 1 ∧
     (Outlit.flush wC9).2.sent =
       wC9.sent ++ [{ source := SourceType.server, events := wC9.client.queue.events }] ∧
     (∀ e : Error, HttpTransport.send (wC9.transport wC9.calls) = Except.error e →
       (Outlit.flush wC9).1 = Except.error e) ∧
     (∀ resp : IngestResponse,
       HttpTransport.send (wC9.transport wC9.calls) = Except.ok resp →
       (Outlit.flush wC9).1 = Except.ok ()) ∧
     (∀ v : World Nat, v.client.queue.events = [] → Outlit.flush v = (Except.ok (), v))) :=
  ⟨rfl, by simp [wC9], flush_not_gated_by_lifecycle wC9 rfl (by simp [wC9])⟩

/-- Witness for C10: a shutdown whose terminal flush times out. -/
theorem shutdown_terminal_flush_failure_witness :
    wC10.client.is_shutdown = false ∧
    wC10.client.queue.events ≠ [] ∧
    HttpTransport.send (wC10.transport wC10.calls)
      = .error (Error.http "operation timed out") ∧
    ((Outlit.shutdown wC10).1 = .error (Error.http "operation timed out") ∧
     (Outlit.shutdown wC10).2.client.is_shutdown = true ∧
     (Outlit.shutdown wC10).2.client.queue.events = wC10.client.queue.events ∧
     Outlit.shutdown (Outlit.shutdown wC10).2 = (.ok (), (Outlit.shutdown wC10).2) ∧
     (Outlit.shutdown (Outlit.shutdown wC10).2).2.calls = (Outlit.shutdown wC10).2.calls ∧
     Outlit.enqueue_and_maybe_flush (Outlit.shutdown wC10).2 8
       = (.error .shutdown, (Outlit.shutdown wC10).2)) :=
  ⟨rfl, by simp [wC10], rfl,
   shutdown_terminal_flush_failure wC10 (Error.http "operation timed out") 8
     rfl (by simp [wC10]) rfl⟩

end OutlitSDK
